import Mathlib

/-!
Shallow embedding of `figure_type_creator.py` (repository `plot_config`)
and proofs of the specification's claims about it.

The embedding conventions:
* Python lists become Lean `List`s; `list * m` (repetition) is `pyListMul`.
* Python `dict` built by a comprehension or `update` is modelled as the
  association list of its insertions in order; lookup (`dictGet`) returns the
  value of the LAST insertion for a key, which is exactly Python's
  overwrite-on-duplicate-key semantics.
* A Python function that can raise becomes a function into `Option`
  (`none` = the raise); `get_entries` raises `ZeroDivisionError` on an empty
  palette, `__init__` raises `IndexError` when the color list is shorter than
  the other channel sequences, `get_line_sizes` raises `NotImplementedError`
  on an unknown mode, and `paper_small_font` raises `AssertionError` when the
  small-font patch is requested outside `paper` mode.
* Numeric style values are exact rationals (`ℚ`); all literals in the source
  are decimal and lossless.
-/

/-- Python list repetition `l * m`: `m` copies of `l` concatenated. -/
def pyListMul (l : List α) : Nat → List α
  | 0 => []
  | m + 1 => l ++ pyListMul l m

/-- A value stored in a matplotlib-style option dictionary: a number, a
string, or a property cycle (list of per-series key/value rows). -/
inductive StyleVal where
  | num (q : ℚ)
  | str (s : String)
  | cyc (rows : List (List (String × String)))
  deriving DecidableEq

/-- Python `dict` lookup on an insertion-ordered association list: the value
of the last insertion with the given key, `none` if the key is absent. -/
def dictGet [DecidableEq α] : List (α × β) → α → Option β
  | [], _ => none
  | (k', v) :: rest, k =>
    match dictGet rest k with
    | some v' => some v'
    | none => if k' = k then some v else none

/-- Python `dict.update`: the later insertions win on lookup, so appending
the new entries models it. -/
def dictUpdate (d e : List (α × β)) : List (α × β) := d ++ e

/-- `FigureTypeCreator.get_entries(cycle_list, num_entries)`:
`m = int(num_entries / len) + 1; return (cycle_list * m)[:num_entries]`.
An empty `cycle_list` raises (`ZeroDivisionError`), modelled as `none`. -/
def get_entries (cycle_list : List α) (num_entries : Nat) : Option (List α) :=
  let n := cycle_list.length
  if n = 0 then none
  else some ((pyListMul cycle_list (num_entries / n + 1)).take num_entries)

/-- The fixed line-style palette from `__init__`. -/
def available_linestyles : List String := ["solid", "dotted", "dashed", "dashdot"]

/-- The fixed marker palette from `__init__`. -/
def available_markers : List String := ["o", "^", "s", "*", "X", "d"]

/-- The fixed hatch palette from `__init__`. -/
def available_hatches : List String := ["", "//", "\\\\", "||", "--", "++", "xx"]

/-- The color-keyed reverse map `{colors[i]: v for i, v in enumerate(seq)}`:
raises `IndexError` (`none`) when `colors` has fewer entries than `seq`;
otherwise the pairs `(colors[i], seq[i])` in index order. -/
def buildColorMap (colors seq : List String) : Option (List (String × String)) :=
  if colors.length < seq.length then none
  else some (colors.zip seq)

/-- The state built by `FigureTypeCreator.__init__`. -/
structure FigureTypeCreator where
  type : String
  num_entries : Nat
  use_markers : Bool
  paper_use_small_font : Bool
  colors : List String
  linestyles : List String
  markers : List String
  hatches : List String
  hatch_map : List (String × String)
  marker_map : List (String × String)
  ls_map : List (String × String)
  deriving DecidableEq, Inhabited

/-- `FigureTypeCreator.__init__`: truncate the colors to `num_entries`, cycle
the three built-in palettes to `num_entries`, then build the three
color-keyed reverse maps (hatch, marker, line style, in that order). -/
def mkFigureTypeCreator (type : String) (colors : List String)
    (use_markers paper_use_small_font : Bool) (num_entries : Nat) :
    Option FigureTypeCreator :=
  let colorsT := colors.take num_entries
  match get_entries available_linestyles num_entries,
        get_entries available_markers num_entries,
        get_entries available_hatches num_entries with
  | some linestyles, some markers, some hatches =>
    match buildColorMap colorsT hatches, buildColorMap colorsT markers,
          buildColorMap colorsT linestyles with
    | some hm, some mm, some lm =>
      some { type := type, num_entries := num_entries,
             use_markers := use_markers,
             paper_use_small_font := paper_use_small_font,
             colors := colorsT, linestyles := linestyles,
             markers := markers, hatches := hatches,
             hatch_map := hm, marker_map := mm, ls_map := lm }
    | _, _, _ => none
  | _, _, _ => none

/- ### Helper lemmas about `pyListMul` and `get_entries` -/

theorem pyListMul_length (l : List α) (m : Nat) :
    (pyListMul l m).length = m * l.length := by
  induction m with
  | zero => simp [pyListMul]
  | succ m ih =>
      simp [pyListMul, ih, Nat.succ_mul, Nat.add_comm]

theorem pyListMul_getElem? (l : List α) (m i : Nat) (h : i < m * l.length) :
    (pyListMul l m)[i]? = l[i % l.length]? := by
  induction m generalizing i with
  | zero => simp at h
  | succ m ih =>
      by_cases hi : i < l.length
      · rw [pyListMul, List.getElem?_append_left hi, Nat.mod_eq_of_lt hi]
      · have hle : l.length ≤ i := Nat.le_of_not_lt hi
        have hmul : (m + 1) * l.length = m * l.length + l.length :=
          Nat.succ_mul m l.length
        rw [pyListMul, List.getElem?_append_right hle,
          ih (i - l.length) (by omega), Nat.mod_eq_sub_mod hle]

theorem num_entries_lt_mul (num n : Nat) (hn : n ≠ 0) :
    num < (num / n + 1) * n := by
  have h1 : n * (num / n) + num % n = num := Nat.div_add_mod num n
  have h2 : num % n < n := Nat.mod_lt num (Nat.pos_of_ne_zero hn)
  have h3 : (num / n + 1) * n = num / n * n + n := Nat.succ_mul _ _
  have h4 : num / n * n = n * (num / n) := Nat.mul_comm _ _
  omega

theorem get_entries_eq_some (P : List α) (num : Nat) (hP : P ≠ []) :
    get_entries P num =
      some ((pyListMul P (num / P.length + 1)).take num) := by
  have hlen : P.length ≠ 0 := by
    simpa using List.length_pos.mpr hP |>.ne'
  simp [get_entries, hlen]

theorem get_entries_some_length (P : List α) (num : Nat) (hP : P ≠ []) :
    ∀ l, get_entries P num = some l → l.length = num := by
  intro l hl
  rw [get_entries_eq_some P num hP] at hl
  have hlen : P.length ≠ 0 := by
    simpa using List.length_pos.mpr hP |>.ne'
  have hcov : num ≤ (pyListMul P (num / P.length + 1)).length := by
    rw [pyListMul_length]
    exact Nat.le_of_lt (num_entries_lt_mul num P.length hlen)
  simp only [Option.some.injEq] at hl
  subst hl
  simp [List.length_take, Nat.min_eq_left hcov]

theorem get_entries_some_getElem? (P : List α) (num : Nat) (hP : P ≠ [])
    (l : List α) (hl : get_entries P num = some l) (i : Nat) (hi : i < num) :
    l[i]? = P[i % P.length]? := by
  rw [get_entries_eq_some P num hP] at hl
  have hlen : P.length ≠ 0 := by
    simpa using List.length_pos.mpr hP |>.ne'
  simp only [Option.some.injEq] at hl
  subst hl
  rw [List.getElem?_take_of_lt hi]
  exact pyListMul_getElem? P _ i
    (Nat.lt_of_lt_of_le hi
      (Nat.le_of_lt (num_entries_lt_mul num P.length hlen)))

/- ### The rest of the embedding: style composition and the document -/

/-- Modelled from the spec: `in2pt` lives in the repository's `util` module,
which is not among the provided sources; the spec treats it as the pure
inch-to-point conversion, "the literal inch value multiplied by 72". -/
def in2pt (inches : ℚ) : ℚ := inches * 72

/-- The external `pubplot.Document`, reduced to what the builder touches:
the merged style mapping, the extra attributes pushed onto `__dict__`, and
the `footnotesize` base size the small-font patch reads. -/
structure Document where
  style : List (String × StyleVal)
  attrs : List (String × ℚ)
  footnotesize : ℚ
  deriving DecidableEq

/-- `get_cycler`: `cycler('color', colors) + cycler('ls', linestyles)`, with
`marker` added to each row when `use_markers` is set. -/
def get_cycler (ftc : FigureTypeCreator) : StyleVal :=
  let base := (ftc.colors.zip ftc.linestyles).map
    (fun p => [("color", p.1), ("ls", p.2)])
  if ftc.use_markers then
    .cyc ((base.zip ftc.markers).map (fun p => p.1 ++ [("marker", p.2)]))
  else
    .cyc base

/-- `get_custom_style`: every entry in the source is commented out. -/
def get_custom_style : List (String × StyleVal) := []

/-- The ten numeric overrides `get_line_sizes` adds in `paper` mode. -/
def paper_line_size_overrides : List (String × StyleVal) :=
  [("axes.linewidth", .num 0.5),
   ("xtick.major.width", .num 0.5),
   ("ytick.major.width", .num 0.5),
   ("xtick.minor.width", .num 0.4),
   ("ytick.minor.width", .num 0.4),
   ("lines.linewidth", .num 0.8),
   ("lines.markersize", .num 1.5),
   ("legend.handlelength", .num 2.5),
   ("hatch.linewidth", .num 0.5),
   ("grid.linewidth", .num 0.25)]

/-- `get_line_sizes`: the mode-independent `grid.linestyle` default, the
paper overrides for `paper`, an empty update (all entries commented out) for
`presentation`, and `NotImplementedError` (`none`) for any other mode. -/
def get_line_sizes (self_type : String) : Option (List (String × StyleVal)) :=
  let ret : List (String × StyleVal) := [("grid.linestyle", .str "--")]
  if self_type = "paper" then
    some (dictUpdate ret paper_line_size_overrides)
  else if self_type = "presentation" then
    some (dictUpdate ret [])
  else
    none

/-- The guard of the size block in `get_font_sizes`. The source tests
`type == 'presentation'`, where the bare name `type` resolves to the Python
builtin class `type`, not to `self.type`; a class object never compares equal
to a string, so the guard is `False` on every call. It is embedded as the
constant it evaluates to. -/
def font_sizes_guard (_self_type : String) : Bool := false

/-- `get_font_sizes`: always the font family and the LaTeX preamble; the
explicit big/small sizes are added only when `font_sizes_guard` holds, which
never happens (see its doc). -/
def get_font_sizes (self_type : String) : List (String × StyleVal) :=
  let ret : List (String × StyleVal) :=
    [("font.family", .str "sans-serif"),
     ("text.latex.preamble",
      .str "\\usepackage[cm]\x7bsfmath\x7d\n\\usepackage\x7bamsmath\x7d")]
  if font_sizes_guard self_type then
    dictUpdate ret
      [("font.size", .num 28),
       ("axes.titlesize", .num 28),
       ("axes.labelsize", .num 28),
       ("legend.fontsize", .num 24),
       ("legend.title_fontsize", .num 28),
       ("xtick.labelsize", .num 24),
       ("ytick.labelsize", .num 24)]
  else ret

/-- `presentation_config`: push the two slide-layout constants onto the
document's `__dict__`. The source calls this for every build, with no check
of the mode. -/
def presentation_config (doc : Document) : Document :=
  { doc with
    attrs := dictUpdate doc.attrs
        [("columnwidth", in2pt 13.33), ("textwidth", in2pt 7.5)] }

/-- `paper_small_font`: when the flag is set, `assert self.type == 'paper'`
(failure modelled as `none`), then shrink the seven font-size entries to one
and two points below the document's `footnotesize`. -/
def paper_small_font (ftc : FigureTypeCreator) (doc : Document) :
    Option Document :=
  if ftc.paper_use_small_font then
    if ftc.type = "paper" then
      let big_size := doc.footnotesize - 1
      let small_size := doc.footnotesize - 2
      some { doc with
             style := dictUpdate doc.style
                 [("font.size", .num big_size),
                  ("axes.titlesize", .num big_size),
                  ("axes.labelsize", .num big_size),
                  ("legend.fontsize", .num small_size),
                  ("legend.title_fontsize", .num big_size),
                  ("xtick.labelsize", .num small_size),
                  ("ytick.labelsize", .num small_size)] }
    else none
  else some doc

/-- `get_figure_type`: assemble the style dictionary, construct the
`Document` (its `footnotesize` comes from the external document class, so it
is a parameter here), then apply `presentation_config` unconditionally and
`paper_small_font`. -/
def get_figure_type (ftc : FigureTypeCreator) (footnotesize : ℚ) :
    Option Document := do
  let line_sizes ← get_line_sizes ftc.type
  let style :=
    dictUpdate
      (dictUpdate
        (dictUpdate
          [("pdf.fonttype", StyleVal.num 42),
           ("axes.prop_cycle", get_cycler ftc)]
          get_custom_style)
        line_sizes)
      (get_font_sizes ftc.type)
  let doc : Document :=
    { style := style, attrs := [], footnotesize := footnotesize }
  let doc := presentation_config doc
  let doc ← paper_small_font ftc doc
  pure doc

/- ### Helper lemmas about `dictGet` on zipped reverse maps -/

theorem dictGet_cons [DecidableEq α] (k' : α) (v : β)
    (rest : List (α × β)) (k : α) :
    dictGet ((k', v) :: rest) k =
      match dictGet rest k with
      | some v' => some v'
      | none => if k' = k then some v else none := rfl

theorem dictGet_zip_not_mem (ks : List String) (vs : List String) (k : String)
    (hk : k ∉ ks) : dictGet (ks.zip vs) k = none := by
  induction ks generalizing vs with
  | nil => simp [dictGet]
  | cons k0 ks' ih =>
      cases vs with
      | nil => simp [dictGet]
      | cons v0 vs' =>
          have hk0 : k0 ≠ k := fun h => hk (h ▸ List.mem_cons_self k0 ks')
          have hk' : k ∉ ks' := fun h => hk (List.mem_cons_of_mem k0 h)
          rw [List.zip_cons_cons, dictGet_cons, ih vs' hk']
          simp [hk0]

theorem dictGet_zip_last (ks vs : List String) (j : Nat) (k : String)
    (hlen : ks.length ≤ vs.length)
    (hj : ks[j]? = some k)
    (hlast : ∀ j', j < j' → ks[j']? ≠ some k) :
    dictGet (ks.zip vs) k = vs[j]? := by
  induction ks generalizing vs j with
  | nil => simp at hj
  | cons k0 ks' ih =>
      cases vs with
      | nil => simp at hlen
      | cons v0 vs' =>
          cases j with
          | zero =>
              simp only [List.getElem?_cons_zero, Option.some.injEq] at hj
              have hnot : k ∉ ks' := by
                intro hmem
                obtain ⟨i, hi⟩ := List.getElem?_of_mem hmem
                exact hlast (i + 1) (Nat.succ_pos i)
                  (by simpa using hi)
              rw [List.zip_cons_cons, dictGet_cons,
                dictGet_zip_not_mem ks' vs' k hnot]
              simp [hj]
          | succ j' =>
              have hj'' : ks'[j']? = some k := by simpa using hj
              have hlast' : ∀ i, j' < i → ks'[i]? ≠ some k := by
                intro i hi
                have := hlast (i + 1) (Nat.succ_lt_succ hi)
                simpa using this
              have hlen' : ks'.length ≤ vs'.length := by simpa using hlen
              have hrec := ih vs' j' hlen' hj'' hlast'
              have hjlt : j' < ks'.length := by
                rcases List.getElem?_eq_some.mp hj'' with ⟨h, _⟩
                exact h
              have hvlt : j' < vs'.length := Nat.lt_of_lt_of_le hjlt hlen'
              obtain ⟨v, hv⟩ : ∃ v, vs'[j']? = some v :=
                ⟨vs'.get ⟨j', hvlt⟩, by simp [List.getElem?_eq_getElem hvlt]⟩
              rw [List.zip_cons_cons, dictGet_cons, hrec, hv]
              simp [hv]

/- ### Elimination lemma for a successful `__init__` -/

theorem mk_some_fields (t : String) (cs : List String) (um pf : Bool)
    (N : Nat) (ftc : FigureTypeCreator)
    (hmk : mkFigureTypeCreator t cs um pf N = some ftc) :
    ftc.type = t ∧ ftc.use_markers = um ∧ ftc.paper_use_small_font = pf ∧
    ftc.num_entries = N ∧ ftc.colors = cs.take N ∧
    ftc.colors.length = N ∧
    get_entries available_linestyles N = some ftc.linestyles ∧
    get_entries available_markers N = some ftc.markers ∧
    get_entries available_hatches N = some ftc.hatches ∧
    ftc.hatch_map = ftc.colors.zip ftc.hatches ∧
    ftc.marker_map = ftc.colors.zip ftc.markers ∧
    ftc.ls_map = ftc.colors.zip ftc.linestyles := by
  obtain ⟨ls, hls⟩ : ∃ l, get_entries available_linestyles N = some l :=
    ⟨_, get_entries_eq_some available_linestyles N (by decide)⟩
  obtain ⟨mk, hm⟩ : ∃ l, get_entries available_markers N = some l :=
    ⟨_, get_entries_eq_some available_markers N (by decide)⟩
  obtain ⟨ht, hh⟩ : ∃ l, get_entries available_hatches N = some l :=
    ⟨_, get_entries_eq_some available_hatches N (by decide)⟩
  have hlsl : ls.length = N :=
    get_entries_some_length available_linestyles N (by decide) ls hls
  have hml : mk.length = N :=
    get_entries_some_length available_markers N (by decide) mk hm
  have hhl : ht.length = N :=
    get_entries_some_length available_hatches N (by decide) ht hh
  simp only [mkFigureTypeCreator, hls, hm, hh, buildColorMap]
    at hmk
  by_cases hlt : (cs.take N).length < N
  · rw [if_pos (by omega : (cs.take N).length < ht.length)] at hmk
    simp at hmk
  · rw [if_neg (by omega : ¬ (cs.take N).length < ht.length),
      if_neg (by omega : ¬ (cs.take N).length < mk.length),
      if_neg (by omega : ¬ (cs.take N).length < ls.length)] at hmk
    simp only [Option.some.injEq] at hmk
    subst hmk
    have hctl : (cs.take N).length = N := by
      simp only [List.length_take] at hlt ⊢
      omega
    refine ⟨rfl, rfl, rfl, rfl, rfl, hctl, hls, hm, hh, rfl, rfl, rfl⟩

/- ### Claim theorems -/

/-- C1: for every non-empty palette `P` and every `n ≥ 0`, `get_entries`
returns a sequence of length exactly `n` whose element at each position `i`
equals `P[i mod len(P)]`. -/
theorem claim_C1_get_entries_cyclic (P : List α) (n : Nat) (hP : P ≠ []) :
    ∃ l, get_entries P n = some l ∧ l.length = n ∧
      ∀ i, i < n → l[i]? = P[i % P.length]? := by
  refine ⟨_, get_entries_eq_some P n hP, ?_, ?_⟩
  · exact get_entries_some_length P n hP _ (get_entries_eq_some P n hP)
  · intro i hi
    exact get_entries_some_getElem? P n hP _ (get_entries_eq_some P n hP) i hi

/-- Witness for C1 at the spec scenario `assign(['o','^','s'], 5)`. -/
theorem claim_C1_witness :
    (["o", "^", "s"] : List String) ≠ [] ∧
    (∃ l, get_entries (["o", "^", "s"] : List String) 5 = some l ∧
      l.length = 5 ∧
      ∀ i, i < 5 → l[i]? = (["o", "^", "s"] : List String)[i % (["o", "^", "s"] : List String).length]?) :=
  ⟨by decide, claim_C1_get_entries_cyclic ["o", "^", "s"] 5 (by decide)⟩

/-- C2: for every successful builder construction with target count `N`, the
four per-series channel sequences (colors, line styles, markers, hatches)
all have length exactly `N`. -/
theorem claim_C2_channel_lengths (t : String) (cs : List String)
    (um pf : Bool) (N : Nat) (ftc : FigureTypeCreator)
    (hmk : mkFigureTypeCreator t cs um pf N = some ftc) :
    ftc.colors.length = N ∧ ftc.linestyles.length = N ∧
    ftc.markers.length = N ∧ ftc.hatches.length = N := by
  obtain ⟨-, -, -, -, -, hcl, hls, hm, hh, -, -, -⟩ :=
    mk_some_fields t cs um pf N ftc hmk
  exact ⟨hcl,
    get_entries_some_length available_linestyles N (by decide) _ hls,
    get_entries_some_length available_markers N (by decide) _ hm,
    get_entries_some_length available_hatches N (by decide) _ hh⟩

/-- Witness for C2 at a concrete paper-mode build with `N = 3`. -/
theorem claim_C2_witness :
    mkFigureTypeCreator "paper" ["a", "b", "c"] false true 3 =
      some ((mkFigureTypeCreator "paper" ["a", "b", "c"] false true 3).getD default) ∧
    (((mkFigureTypeCreator "paper" ["a", "b", "c"] false true 3).getD default).colors.length = 3 ∧
     ((mkFigureTypeCreator "paper" ["a", "b", "c"] false true 3).getD default).linestyles.length = 3 ∧
     ((mkFigureTypeCreator "paper" ["a", "b", "c"] false true 3).getD default).markers.length = 3 ∧
     ((mkFigureTypeCreator "paper" ["a", "b", "c"] false true 3).getD default).hatches.length = 3) :=
  ⟨by decide, claim_C2_channel_lengths "paper" ["a", "b", "c"] false true 3 _ (by decide)⟩

/-- C3 (code evaluation at the failing input): `get_font_sizes` never emits
any of the seven explicit size entries, for `presentation` just as for
`paper`, because its guard compares the Python builtin `type` — not
`self.type` — to the string `'presentation'`; only the font family and the
LaTeX preamble are produced. This contradicts the claim that `presentation`
builds get a two-tier size set. -/
theorem claim_C3_font_sizes_never_set (mode : String) :
    dictGet (get_font_sizes mode) "font.size" = none ∧
    dictGet (get_font_sizes mode) "axes.titlesize" = none ∧
    dictGet (get_font_sizes mode) "axes.labelsize" = none ∧
    dictGet (get_font_sizes mode) "legend.fontsize" = none ∧
    dictGet (get_font_sizes mode) "legend.title_fontsize" = none ∧
    dictGet (get_font_sizes mode) "xtick.labelsize" = none ∧
    dictGet (get_font_sizes mode) "ytick.labelsize" = none ∧
    dictGet (get_font_sizes mode) "font.family" = some (.str "sans-serif") :=
  ⟨rfl, rfl, rfl, rfl, rfl, rfl, rfl, rfl⟩

/-- C4 (code evaluation at the failing input): a `paper`-mode build receives
the two presentation-only layout constants, because `get_figure_type` calls
`presentation_config` unconditionally; the claim says a paper document never
receives them. -/
theorem claim_C4_paper_gets_layout_constants :
    ((mkFigureTypeCreator "paper" ["a", "b"] false true 2).bind
        (fun ftc => get_figure_type ftc 8)).map
        (fun doc => (dictGet doc.attrs "columnwidth",
                     dictGet doc.attrs "textwidth"))
      = some (some (in2pt 13.33), some (in2pt 7.5)) := rfl

/-- C5: whenever the small-font flag is set and the mode is not `paper`, the
`assert self.type == 'paper'` in `paper_small_font` fires: the patch is not
applied (no document is produced) and the whole build fails. -/
theorem claim_C5_small_font_contract (ftc : FigureTypeCreator)
    (hflag : ftc.paper_use_small_font = true)
    (htype : ftc.type ≠ "paper") :
    (∀ doc, paper_small_font ftc doc = none) ∧
    (∀ footnotesize, get_figure_type ftc footnotesize = none) := by
  have hps : ∀ doc, paper_small_font ftc doc = none := by
    intro doc
    simp [paper_small_font, hflag, htype]
  refine ⟨hps, ?_⟩
  intro footnotesize
  cases h : get_line_sizes ftc.type with
  | none => simp [get_figure_type, h]
  | some line_sizes => simp [get_figure_type, h, hps]

/-- Witness for C5 at a concrete `presentation`-mode build. -/
theorem claim_C5_witness :
    ((mkFigureTypeCreator "presentation" ["a", "b"] false true 2).getD default).paper_use_small_font = true ∧
    ((mkFigureTypeCreator "presentation" ["a", "b"] false true 2).getD default).type ≠ "paper" ∧
    (∀ doc, paper_small_font
      ((mkFigureTypeCreator "presentation" ["a", "b"] false true 2).getD default) doc = none) ∧
    (∀ footnotesize, get_figure_type
      ((mkFigureTypeCreator "presentation" ["a", "b"] false true 2).getD default) footnotesize = none) := by
  have h := claim_C5_small_font_contract
    ((mkFigureTypeCreator "presentation" ["a", "b"] false true 2).getD default)
    (by decide) (by decide)
  exact ⟨by decide, by decide, h.1, h.2⟩

/-- Shared core of the reverse-map claims: in a successful build, looking up
a color that last occurs at index `j` yields the channel values at `j`. -/
theorem reverse_map_lookup_at_last (t : String) (cs : List String)
    (um pf : Bool) (N : Nat) (ftc : FigureTypeCreator)
    (hmk : mkFigureTypeCreator t cs um pf N = some ftc)
    (j : Nat) (c : String)
    (hj : ftc.colors[j]? = some c)
    (hlast : ∀ j', j < j' → ftc.colors[j']? ≠ some c) :
    dictGet ftc.ls_map c = ftc.linestyles[j]? ∧
    dictGet ftc.marker_map c = ftc.markers[j]? ∧
    dictGet ftc.hatch_map c = ftc.hatches[j]? := by
  obtain ⟨-, -, -, -, -, hcl, hls, hm, hh, hhm, hmm, hlm⟩ :=
    mk_some_fields t cs um pf N ftc hmk
  have hlsl : ftc.linestyles.length = N :=
    get_entries_some_length available_linestyles N (by decide) _ hls
  have hml : ftc.markers.length = N :=
    get_entries_some_length available_markers N (by decide) _ hm
  have hhl : ftc.hatches.length = N :=
    get_entries_some_length available_hatches N (by decide) _ hh
  refine ⟨?_, ?_, ?_⟩
  · rw [hlm]
    exact dictGet_zip_last _ _ j c (by rw [hcl, hlsl]) hj hlast
  · rw [hmm]
    exact dictGet_zip_last _ _ j c (by rw [hcl, hml]) hj hlast
  · rw [hhm]
    exact dictGet_zip_last _ _ j c (by rw [hcl, hhl]) hj hlast

/-- C6: in a build from a color palette of length at least `N` whose first
`N` entries are pairwise distinct, looking up `colors[i]` in each of the
three color-keyed reverse maps yields the line style, marker, and hatch
assigned at the same index `i`. -/
theorem claim_C6_reverse_map_round_trip (t : String) (cs : List String)
    (um pf : Bool) (N : Nat) (ftc : FigureTypeCreator)
    (hmk : mkFigureTypeCreator t cs um pf N = some ftc)
    (_hlen : N ≤ cs.length)
    (hnodup : (cs.take N).Nodup)
    (i : Nat) (hi : i < N) (c : String)
    (hc : ftc.colors[i]? = some c) :
    dictGet ftc.ls_map c = ftc.linestyles[i]? ∧
    dictGet ftc.marker_map c = ftc.markers[i]? ∧
    dictGet ftc.hatch_map c = ftc.hatches[i]? := by
  obtain ⟨-, -, -, -, hcols, hcl, -, -, -, -, -, -⟩ :=
    mk_some_fields t cs um pf N ftc hmk
  have hnd : ftc.colors.Nodup := hcols ▸ hnodup
  have hilt : i < ftc.colors.length := by rw [hcl]; exact hi
  have hlast : ∀ j', i < j' → ftc.colors[j']? ≠ some c := by
    intro j' hij' hcon
    have : i = j' := List.getElem?_inj hilt hnd (by rw [hc, hcon])
    omega
  exact reverse_map_lookup_at_last t cs um pf N ftc hmk i c hc hlast

/-- Witness for C6: distinct palette `["a","b","c"]`, `N = 3`, index 1. -/
theorem claim_C6_witness :
    mkFigureTypeCreator "paper" ["a", "b", "c"] false true 3 =
      some ((mkFigureTypeCreator "paper" ["a", "b", "c"] false true 3).getD default) ∧
    3 ≤ (["a", "b", "c"] : List String).length ∧
    ((["a", "b", "c"] : List String).take 3).Nodup ∧
    ((mkFigureTypeCreator "paper" ["a", "b", "c"] false true 3).getD default).colors[1]? = some "b" ∧
    (dictGet ((mkFigureTypeCreator "paper" ["a", "b", "c"] false true 3).getD default).ls_map "b" =
      ((mkFigureTypeCreator "paper" ["a", "b", "c"] false true 3).getD default).linestyles[1]? ∧
     dictGet ((mkFigureTypeCreator "paper" ["a", "b", "c"] false true 3).getD default).marker_map "b" =
      ((mkFigureTypeCreator "paper" ["a", "b", "c"] false true 3).getD default).markers[1]? ∧
     dictGet ((mkFigureTypeCreator "paper" ["a", "b", "c"] false true 3).getD default).hatch_map "b" =
      ((mkFigureTypeCreator "paper" ["a", "b", "c"] false true 3).getD default).hatches[1]?) :=
  ⟨by decide, by decide, by decide, by decide,
   claim_C6_reverse_map_round_trip "paper" ["a", "b", "c"] false true 3 _
     (by decide) (by decide) (by decide) 1 (by decide) "b" (by decide)⟩

/-- C7: `get_line_sizes` for `paper` contains `axes.linewidth = 0.5` and
`lines.linewidth = 0.8` on top of the mode-independent
`grid.linestyle = '--'`; for `presentation` it is exactly the
mode-independent default, containing none of the paper-specific keys. -/
theorem claim_C7_line_sizes_by_mode :
    (∃ d, get_line_sizes "paper" = some d ∧
      dictGet d "axes.linewidth" = some (.num 0.5) ∧
      dictGet d "lines.linewidth" = some (.num 0.8) ∧
      dictGet d "grid.linestyle" = some (.str "--")) ∧
    get_line_sizes "presentation" = some [("grid.linestyle", .str "--")] ∧
    ((paper_line_size_overrides.map Prod.fst).all
      (fun k => (dictGet ((get_line_sizes "presentation").getD []) k).isNone))
      = true :=
  ⟨⟨_, rfl, rfl, rfl, rfl⟩, rfl, rfl⟩

/-- C8: `get_entries` fails on the empty palette, succeeds on every
non-empty palette (no other error conditions), and returns the empty
sequence for `n = 0`. -/
theorem claim_C8_get_entries_error_conditions (P : List α) (n : Nat) :
    get_entries ([] : List α) n = none ∧
    (P ≠ [] → (get_entries P n).isSome = true) ∧
    (P ≠ [] → get_entries P 0 = some []) := by
  refine ⟨by simp [get_entries], ?_, ?_⟩
  · intro hP
    rw [get_entries_eq_some P n hP]
    rfl
  · intro hP
    rw [get_entries_eq_some P 0 hP]
    simp

/-- Witness for C8 at the palette `["x"]` and `n = 7`. -/
theorem claim_C8_witness :
    get_entries ([] : List String) 7 = none ∧
    (["x"] : List String) ≠ [] ∧
    (get_entries (["x"] : List String) 7).isSome = true ∧
    get_entries (["x"] : List String) 0 = some [] :=
  ⟨(claim_C8_get_entries_error_conditions (["x"] : List String) 7).1,
   by decide,
   (claim_C8_get_entries_error_conditions (["x"] : List String) 7).2.1 (by decide),
   (claim_C8_get_entries_error_conditions (["x"] : List String) 7).2.2 (by decide)⟩

/-- C9: when a color occurs at index `j` of the truncated color sequence and
at no later index, each color-keyed reverse map binds it to the channel value
at `j` — so with duplicates, later entries silently overwrite earlier ones. -/
theorem claim_C9_duplicate_color_last_wins (t : String) (cs : List String)
    (um pf : Bool) (N : Nat) (ftc : FigureTypeCreator)
    (hmk : mkFigureTypeCreator t cs um pf N = some ftc)
    (j : Nat) (c : String)
    (hj : ftc.colors[j]? = some c)
    (hlast : ∀ j', j < j' → ftc.colors[j']? ≠ some c) :
    dictGet ftc.ls_map c = ftc.linestyles[j]? ∧
    dictGet ftc.marker_map c = ftc.markers[j]? ∧
    dictGet ftc.hatch_map c = ftc.hatches[j]? :=
  reverse_map_lookup_at_last t cs um pf N ftc hmk j c hj hlast

/-- Witness for C9: palette `["a","b","a"]`, `N = 3`; the duplicate color
`"a"` last occurs at index 2, and lookup yields the index-2 channel values
(`"dashed"`, `"s"`, `"\\\\"`), not the index-0 ones. -/
theorem claim_C9_witness :
    ((mkFigureTypeCreator "paper" ["a", "b", "a"] false true 3).getD default).colors[2]? = some "a" ∧
    (∀ j', 2 < j' →
      ((mkFigureTypeCreator "paper" ["a", "b", "a"] false true 3).getD default).colors[j']? ≠ some "a") ∧
    (dictGet ((mkFigureTypeCreator "paper" ["a", "b", "a"] false true 3).getD default).ls_map "a" =
      ((mkFigureTypeCreator "paper" ["a", "b", "a"] false true 3).getD default).linestyles[2]? ∧
     dictGet ((mkFigureTypeCreator "paper" ["a", "b", "a"] false true 3).getD default).marker_map "a" =
      ((mkFigureTypeCreator "paper" ["a", "b", "a"] false true 3).getD default).markers[2]? ∧
     dictGet ((mkFigureTypeCreator "paper" ["a", "b", "a"] false true 3).getD default).hatch_map "a" =
      ((mkFigureTypeCreator "paper" ["a", "b", "a"] false true 3).getD default).hatches[2]?) := by
  have hlast : ∀ j', 2 < j' →
      ((mkFigureTypeCreator "paper" ["a", "b", "a"] false true 3).getD default).colors[j']? ≠ some "a" := by
    intro j' hj'
    rw [show ((mkFigureTypeCreator "paper" ["a", "b", "a"] false true 3).getD default).colors
        = ["a", "b", "a"] from rfl,
      List.getElem?_eq_none (by simp only [List.length_cons, List.length_nil]; omega)]
    simp
  exact ⟨by decide, hlast,
    claim_C9_duplicate_color_last_wins "paper" ["a", "b", "a"] false true 3 _
      (by decide) 2 "a" (by decide) hlast⟩

/-- C10: a color palette with fewer than `num_entries` entries makes the
constructor fail (`IndexError` while building the color-keyed reverse maps),
because the colors are only truncated, never cycled, while the other three
channel sequences are cycled to length `num_entries`. -/
theorem claim_C10_short_palette_constructor_fails (t : String)
    (cs : List String) (um pf : Bool) (N : Nat)
    (hshort : cs.length < N) :
    mkFigureTypeCreator t cs um pf N = none := by
  have hls := get_entries_eq_some available_linestyles N (by decide)
  have hm := get_entries_eq_some available_markers N (by decide)
  have hh := get_entries_eq_some available_hatches N (by decide)
  have hhl := get_entries_some_length available_hatches N (by decide) _ hh
  have hcond : (cs.take N).length <
      ((pyListMul available_hatches (N / available_hatches.length + 1)).take N).length := by
    rw [hhl, List.length_take]
    omega
  simp only [mkFigureTypeCreator, hls, hm, hh, buildColorMap, if_pos hcond]

/-- Witness for C10: a one-color palette with `num_entries = 2`. -/
theorem claim_C10_witness :
    (["a"] : List String).length < 2 ∧
    mkFigureTypeCreator "paper" ["a"] false true 2 = none :=
  ⟨by decide,
   claim_C10_short_palette_constructor_fails "paper" ["a"] false true 2 (by decide)⟩
